import Mathlib

/-!
Verification of the kiwi dracut boot-image builder
(src/kiwi/boot/image/dracut.py, class BootImageDracut).

The Python class is shallowly embedded: instance attributes become fields
of `BootImageState`, methods become functions from a state (plus the
environmental inputs they consume) to a new state together with the
externally visible effects (issued process command token lists, log
events, the written configuration file).  Python exceptions are modelled
with `Except`.  Parts of the repository the class depends on but that are
not under src/ (the BootImageBase base class, the Kernel inspector,
Defaults) are modelled from the specification and marked as such in their
doc comments.
-/

/-- Kernel name and version as reported by the kernel inspector
(the kernel_details named tuple). -/
structure KernelInfo where
  name : String
  version : String
deriving DecidableEq, Repr

/-- Log events emitted through kiwi.logger.log. -/
inductive LogMsg where
  | info (msg : String)
  | debug (msg : String)
  | warning (msg : String)
deriving DecidableEq, Repr

/-- Errors raised on the paths the embedding covers: the kernel inspector
failure in raise_on_not_found mode, the KiwiDiskBootImageError raised by
get_boot_names, and the Python IndexError raised by indexing an empty
re.findall result. -/
inductive KiwiError where
  | KernelLookupFailed
  | KiwiDiskBootImageError (msg : String)
  | IndexError
deriving DecidableEq, Repr

/-- Instance state of BootImageDracut.  The seven accumulator lists are
initialized by post_init (dracut.py lines 39-51).  boot_root_directory,
target_dir and initrd_base_name are attributes inherited from
BootImageBase (not under src/); prepared models the NOT_PREPARED to
PREPARED transition of the specification state machine read through
is_prepared.  initrd_filename is the recorded build result. -/
structure BootImageState where
  boot_root_directory : String
  target_dir : String
  initrd_base_name : String
  prepared : Bool
  dracut_options : List String
  included_files : List String
  included_files_install : List String
  modules : List String
  install_modules : List String
  omit_modules : List String
  omit_install_modules : List String
  initrd_filename : Option String
deriving DecidableEq, Repr

/-- Modelled from the spec: construction of a fresh builder instance for a
(root, target, configured default base name) tuple, followed by post_init
(dracut.py lines 39-51) which initializes the empty accumulator lists.
The instance starts in the NOT_PREPARED state with no recorded result. -/
def post_init (root target base : String) : BootImageState :=
  { boot_root_directory := root
    target_dir := target
    initrd_base_name := base
    prepared := false
    dracut_options := []
    included_files := []
    included_files_install := []
    modules := []
    install_modules := []
    omit_modules := []
    omit_install_modules := []
    initrd_filename := none }

/-- include_file (dracut.py lines 53-63): appends the two tokens
--install, filename to included_files, and additionally to
included_files_install when install_media is true. -/
def include_file (s : BootImageState) (filename : String) (install_media : Bool) :
    BootImageState :=
  let s := { s with included_files := s.included_files ++ ["--install", filename] }
  if install_media then
    { s with included_files_install := s.included_files_install ++ ["--install", filename] }
  else s

/-- include_module (dracut.py lines 65-75), translated clause for clause:
if install_media holds and the module is not in install_modules it is
appended there; OTHERWISE (elif) if the module is not in modules it is
appended to modules — also when install_media is true. -/
def include_module (s : BootImageState) (module : String) (install_media : Bool) :
    BootImageState :=
  if install_media && !(s.install_modules.contains module) then
    { s with install_modules := s.install_modules ++ [module] }
  else if !(s.modules.contains module) then
    { s with modules := s.modules ++ [module] }
  else s

/-- omit_module (dracut.py lines 77-87), same if/elif structure as
include_module over the omit sets. -/
def omit_module (s : BootImageState) (module : String) (install_media : Bool) :
    BootImageState :=
  if install_media && !(s.omit_install_modules.contains module) then
    { s with omit_install_modules := s.omit_install_modules ++ [module] }
  else if !(s.omit_modules.contains module) then
    { s with omit_modules := s.omit_modules ++ [module] }
  else s

/-- Modelled from the spec: Defaults.get_dracut_conf_name (kiwi/defaults.py
is not under src/) returns the fixed dracut configuration file location
under the root tree. -/
def dracut_conf_name : String := "/etc/dracut.conf.d/02-kiwi.conf"

/-- The dracut configuration mapping accepted by write_system_config_file:
a dict whose keys modules and omit_modules, when present, hold lists of
module names.  none models an absent key. -/
structure DracutConfig where
  modules : Option (List String)
  omit_modules : Option (List String)
deriving DecidableEq, Repr

/-- Python truthiness of config.get(key) for this mapping: true exactly
when the key is present and its list is non-empty. -/
def truthy : Option (List String) → Bool
  | some (_ :: _) => true
  | _ => false

/-- The dracut_config line list built by write_system_config_file
(dracut.py lines 96-112): one add_dracutmodules line when the modules key
is present and non-empty, then one omit_dracutmodules line when the
omit_modules key is present and non-empty. -/
def dracut_config_lines (config : DracutConfig) : List String :=
  (match config.modules with
   | some (x :: xs) =>
       ["add_dracutmodules+=\" " ++ String.intercalate " " (x :: xs) ++ " \"\n"]
   | _ => []) ++
  (match config.omit_modules with
   | some (x :: xs) =>
       ["omit_dracutmodules+=\" " ++ String.intercalate " " (x :: xs) ++ " \"\n"]
   | _ => [])

/-- write_system_config_file (dracut.py lines 89-115).  Returns the
instance state after the call together with the written file as an
optional (path, lines) pair; none means the file is not created (the
final `if dracut_config:` guard).  A missing or falsy config_file argument
selects the default location under the root tree (os.path.normpath is not
modelled; the concatenated path is already normal for the inputs used). -/
def write_system_config_file (s : BootImageState) (config : DracutConfig)
    (config_file : Option String) : BootImageState × Option (String × List String) :=
  let path :=
    if (config_file.getD "").isEmpty then s.boot_root_directory ++ dracut_conf_name
    else config_file.getD ""
  let dracut_config := dracut_config_lines config
  if dracut_config.isEmpty then (s, none) else (s, some (path, dracut_config))

/-- prepare (dracut.py lines 117-133): appends --install /.profile to
dracut_options.  The Profile and SystemSetup collaborator calls act on the
root tree, not on this state, and are out of the claimed scope; the
prepared flag models the resulting NOT_PREPARED to PREPARED transition as
specified (is_prepared lives in BootImageBase, not under src/). -/
def prepare (s : BootImageState) : BootImageState :=
  { s with
    dracut_options := s.dracut_options ++ ["--install", "/.profile"]
    prepared := true }

/-- Modelled from the spec: Kernel(root).get_kernel() in plain mode
(kiwi/system/kernel.py is not under src/) returns the installed kernel
info or an empty result.  The installed kernel of the root tree is passed
in as the environment. -/
def get_kernel (installed : Option KernelInfo) : Option KernelInfo := installed

/-- Modelled from the spec: get_kernel(raise_on_not_found=True) fails
fatally with the inspector's own error instead of returning empty. -/
def get_kernel_raise_on_not_found (installed : Option KernelInfo) :
    Except KiwiError KernelInfo :=
  match installed with
  | some k => Except.ok k
  | none => Except.error KiwiError.KernelLookupFailed

/-- Result of a create_initrd run: the external command token lists issued
through Command.run in order, the log events, and the state after the
call. -/
structure CreateResult where
  commands : List (List String)
  logs : List LogMsg
  state : BootImageState
deriving DecidableEq, Repr

/-- create_initrd (dracut.py lines 135-198).  mbrid is an unused
parameter of the Python method.  The installed kernel of the root tree is
the environment consumed by the kernel inspector.  External commands are
recorded as token lists; both Command.run calls are assumed to succeed
(process failure propagation is out of the claimed scope) and the captured
dracut output logged at debug level is modelled as the empty string. -/
def create_initrd (s : BootImageState) (installed : Option KernelInfo)
    (mbrid : Option String) (basename : Option String) (install_initrd : Bool) :
    Except KiwiError CreateResult :=
  if s.prepared then
    match get_kernel_raise_on_not_found installed with
    | Except.error e => Except.error e
    | Except.ok kernel_details =>
      let dracut_initrd_basename :=
        match basename with
        | some b => b
        | none => s.initrd_base_name
      let (included_files, modules_args, omit_modules_args) :=
        if install_initrd then
          (s.included_files_install,
           if s.install_modules.isEmpty then [] else
             ["--add", " " ++ String.intercalate " " s.install_modules ++ " "],
           if s.omit_install_modules.isEmpty then [] else
             ["--omit", " " ++ String.intercalate " " s.omit_install_modules ++ " "])
        else
          (s.included_files,
           if s.modules.isEmpty then [] else
             ["--add", " " ++ String.intercalate " " s.modules ++ " "],
           if s.omit_modules.isEmpty then [] else
             ["--omit", " " ++ String.intercalate " " s.omit_modules ++ " "])
      let dracut_initrd_basename := dracut_initrd_basename ++ ".xz"
      let options := s.dracut_options ++ modules_args ++ omit_modules_args ++ included_files
      let dracut_command :=
        ["chroot", s.boot_root_directory,
         "dracut", "--force", "--no-hostonly", "--no-hostonly-cmdline", "--xz"]
          ++ options ++ [dracut_initrd_basename, kernel_details.version]
      let mv_command :=
        ["mv", s.boot_root_directory ++ "/" ++ dracut_initrd_basename, s.target_dir]
      Except.ok
        { commands := [dracut_command, mv_command]
          logs := [LogMsg.info "Creating generic dracut initrd archive", LogMsg.debug ""]
          state := { s with
            initrd_filename := some (s.target_dir ++ "/" ++ dracut_initrd_basename) } }
  else
    Except.ok { commands := [], logs := [], state := s }

/-- Literal part of the outfile marker regular expression up to and
including the mandatory init of the capture group. -/
def outfileMarkerLit : List Char := "outfile=\"/boot/init".data

/-- Literal version-placeholder token of the dracut tool. -/
def kernelTok : List Char := "$kernel".data

/-- Splits cs at the LAST occurrence of the quote character into
(before, after), or none when cs has no quote: the greedy match of the
trailing dot-star before the closing quote of the marker pattern. -/
def lastQuoteSplit : List Char → Option (List Char × List Char)
  | [] => none
  | x :: xs =>
    match lastQuoteSplit xs with
    | some (pre, suf) => some (x :: pre, suf)
    | none => if x = '"' then some ([], xs) else none

/-- Splits cs at the LAST occurrence of the kernel token that is still
followed by a quote, into (before, after-token); the greedy match of the
first dot-star of the marker pattern with backtracking over the rest. -/
def lastKernelSplit : List Char → Option (List Char × List Char)
  | [] => none
  | x :: xs =>
    match lastKernelSplit xs with
    | some (pre, suf) => some (x :: pre, suf)
    | none =>
      if kernelTok.isPrefixOf (x :: xs) && ((x :: xs).drop kernelTok.length).contains '"'
      then some ([], (x :: xs).drop kernelTok.length)
      else none

/-- Attempts to match the marker pattern at the head of cs.  On success
returns the text captured by the group together with the remaining input
after the whole match.  The dots of the pattern do not cross a newline,
so the part after the literal marker is matched inside the current line
only. -/
def matchOutfileAt (cs : List Char) : Option (List Char × List Char) :=
  if outfileMarkerLit.isPrefixOf cs then
    let rest := cs.drop outfileMarkerLit.length
    let line := rest.takeWhile (fun c => c ≠ '\n')
    let afterLine := rest.drop line.length
    match lastKernelSplit line with
    | none => none
    | some (x, afterTok) =>
      match lastQuoteSplit afterTok with
      | none => none
      | some (y, z) =>
        some ("init".data ++ x ++ kernelTok ++ y, z ++ afterLine)
  else none

/-- Scan of re.findall: tries the pattern at every position from the left
and resumes after the end of each non-overlapping match.  The fuel is an
upper bound on the scan steps; each step strictly shortens the input, so
an initial fuel of the input length is always enough. -/
def pyFindallAux : Nat → List Char → List (List Char)
  | 0, _ => []
  | _ + 1, [] => []
  | fuel + 1, c :: cs =>
    match matchOutfileAt (c :: cs) with
    | some (grp, rest) => grp :: pyFindallAux fuel rest
    | none => pyFindallAux fuel cs

/-- re.findall of the marker pattern over the tool text, returning the
captured groups of all non-overlapping matches from the left
(dracut.py lines 253 and 255). -/
def pyFindallOutfile (text : String) : List String :=
  (pyFindallAux text.data.length text.data).map (fun g => String.mk g)

/-- Replacement loop of Python str.replace: replaces the non-overlapping
occurrences of the pattern from the left. -/
def pyReplaceAux (pat rep : List Char) : Nat → List Char → List Char
  | 0, cs => cs
  | _ + 1, [] => []
  | fuel + 1, c :: cs =>
    if pat.isPrefixOf (c :: cs) then
      rep ++ pyReplaceAux pat rep fuel ((c :: cs).drop pat.length)
    else
      c :: pyReplaceAux pat rep fuel cs

/-- Python str.replace(pat, rep) for a non-empty pattern. -/
def pyReplace (s pat rep : String) : String :=
  String.mk (pyReplaceAux pat.data rep.data s.data.length s.data)

/-- The two warnings logged when the output file format cannot be
detected (dracut.py lines 259-262). -/
def detectionWarnings : List LogMsg :=
  [LogMsg.warning "Could not detect dracut output file format",
   LogMsg.warning
     ("Using default initrd file name format " ++ "initramfs-{kernel_version}.img")]

/-- The output format detector (dracut.py lines 236-263).  The
environment is the text of the dracut tool when Path.which finds an
executable dracut on the search path constrained to the usr/bin directory
of the root tree, none otherwise.  When the tool is found, the first
captured group of re.findall is taken by indexing, which raises
IndexError when there is no match; a truthy group is returned with the
kernel placeholder substituted; otherwise the warnings are logged and the
hard-coded default is returned. -/
def _get_dracut_output_file_format (dracut_tool : Option String) :
    Except KiwiError (String × List LogMsg) :=
  let default_outfile_format := "initramfs-{kernel_version}.img"
  match dracut_tool with
  | some text =>
    match pyFindallOutfile text with
    | [] => Except.error KiwiError.IndexError
    | outfile :: _ =>
      if outfile.isEmpty then Except.ok (default_outfile_format, detectionWarnings)
      else Except.ok (pyReplace outfile "$kernel" "{kernel_version}", [])
  | none => Except.ok (default_outfile_format, detectionWarnings)

/-- The boot_names_type named tuple returned by get_boot_names. -/
structure BootNames where
  kernel_name : String
  initrd_name : String
deriving DecidableEq, Repr

/-- get_boot_names (dracut.py lines 200-234): resolves the kernel in
plain mode and raises KiwiDiskBootImageError naming the boot image tree
when the result is empty; otherwise derives the initrd name from the
detected output file format with the kernel version substituted for the
placeholder (str.format with the kernel_version keyword). -/
def get_boot_names (s : BootImageState) (installed : Option KernelInfo)
    (dracut_tool : Option String) : Except KiwiError (BootNames × List LogMsg) :=
  match get_kernel installed with
  | none =>
    Except.error (KiwiError.KiwiDiskBootImageError
      ("No kernel in boot image tree " ++ s.boot_root_directory ++ " found"))
  | some kernel_info =>
    match _get_dracut_output_file_format dracut_tool with
    | Except.error e => Except.error e
    | Except.ok (fmt, logs) =>
      Except.ok
        ({ kernel_name := kernel_info.name
           initrd_name := pyReplace fmt "{kernel_version}" kernel_info.version }, logs)

/-- The builder state of the end-to-end scenario of claim C3: a fresh
instance, prepared, then include_module network for the standard
variant. -/
def networkScenarioState : BootImageState :=
  include_module (prepare (post_init "/root-tree" "/target" "initrd_kiwi")) "network" false

/-- The create_initrd run of the end-to-end scenario of claim C3, with
kernel version 4.4.0 installed in the root tree. -/
def networkScenarioRun : Except KiwiError CreateResult :=
  create_initrd networkScenarioState (some { name := "vmlinuz", version := "4.4.0" })
    none (some "initrd-test") false

/-- C1: the detector returns the hard-coded default with a warning when
the tool is not found, but when the tool is found and no marker match is
extracted it raises IndexError instead of degrading to the default. -/
theorem dracut_output_format_detection_behavior :
    _get_dracut_output_file_format none =
      Except.ok ("initramfs-{kernel_version}.img", detectionWarnings) ∧
    _get_dracut_output_file_format (some "#!/bin/bash\necho test\n") =
      Except.error KiwiError.IndexError := ⟨rfl, rfl⟩

/-- C2: two include_module calls for the same module with install_media
true leave the module in the install-media set once, but the second call
falls through the elif and appends the module to the standard set. -/
theorem include_module_repeated_install_media_crosses_sets :
    (include_module (include_module (post_init "/r" "/t" "b") "network" true)
        "network" true).install_modules = ["network"] ∧
    (include_module (include_module (post_init "/r" "/t" "b") "network" true)
        "network" true).modules = ["network"] := ⟨rfl, rfl⟩

/-- C3 counterexample: in the end-to-end network scenario the dracut
argument list does not contain the plain token network; the add-modules
value token is the space-padded join. -/
theorem create_initrd_network_plain_token_absent :
    networkScenarioRun.toOption.map (fun r => r.commands) =
      some [["chroot", "/root-tree", "dracut", "--force", "--no-hostonly",
             "--no-hostonly-cmdline", "--xz", "--install", "/.profile",
             "--add", " network ", "initrd-test.xz", "4.4.0"],
            ["mv", "/root-tree/initrd-test.xz", "/target"]] ∧
    networkScenarioRun.toOption.map (fun r => (r.commands.headD []).contains "network") =
      some false := ⟨rfl, rfl⟩

/-- C3 (amended): the dracut command is exactly the fixed prefix, then
dracut_options, then the add flag, then the omit flag, then the included
files of the selected variant, ending with the basename plus xz suffix
and the kernel version; each flag is omitted when its set is empty; and
in the network scenario the argument list contains the token --add
followed by the space-padded value token. -/
theorem create_initrd_command_token_order (s : BootImageState) (k : KernelInfo)
    (mb : Option String) (b : String) (ii : Bool) (h : s.prepared = true) :
    create_initrd s (some k) mb (some b) ii =
      Except.ok
        { commands :=
            [["chroot", s.boot_root_directory,
              "dracut", "--force", "--no-hostonly", "--no-hostonly-cmdline", "--xz"]
              ++ s.dracut_options
              ++ (if (if ii then s.install_modules else s.modules).isEmpty then []
                  else ["--add", " " ++ String.intercalate " "
                          (if ii then s.install_modules else s.modules) ++ " "])
              ++ (if (if ii then s.omit_install_modules else s.omit_modules).isEmpty then []
                  else ["--omit", " " ++ String.intercalate " "
                          (if ii then s.omit_install_modules else s.omit_modules) ++ " "])
              ++ (if ii then s.included_files_install else s.included_files)
              ++ [b ++ ".xz", k.version],
             ["mv", s.boot_root_directory ++ "/" ++ (b ++ ".xz"), s.target_dir]]
          logs := [LogMsg.info "Creating generic dracut initrd archive", LogMsg.debug ""]
          state := { s with
            initrd_filename := some (s.target_dir ++ "/" ++ (b ++ ".xz")) } } ∧
    networkScenarioRun.toOption.map
        (fun r => ((r.commands.headD []).contains "--add",
                   (r.commands.headD []).contains " network ")) = some (true, true) := by
  refine ⟨?_, rfl⟩
  cases ii <;> simp [create_initrd, get_kernel_raise_on_not_found, h]

/-- C3 witness: the amended command structure at a concrete prepared
instance in the network scenario. -/
theorem create_initrd_command_token_order_witness :
    create_initrd networkScenarioState (some { name := "vmlinuz", version := "4.4.0" })
        none (some "initrd-test") false =
      Except.ok
        { commands :=
            [["chroot", "/root-tree", "dracut", "--force", "--no-hostonly",
              "--no-hostonly-cmdline", "--xz", "--install", "/.profile",
              "--add", " network ", "initrd-test.xz", "4.4.0"],
             ["mv", "/root-tree/initrd-test.xz", "/target"]]
          logs := [LogMsg.info "Creating generic dracut initrd archive", LogMsg.debug ""]
          state := { networkScenarioState with initrd_filename := some "/target/initrd-test.xz" } } :=
  (create_initrd_command_token_order networkScenarioState
    { name := "vmlinuz", version := "4.4.0" } none "initrd-test" false rfl).1

/-- C4: create_initrd on an instance that is not prepared raises nothing,
issues no command, logs nothing and returns the state unchanged. -/
theorem create_initrd_unprepared_noop (s : BootImageState) (installed : Option KernelInfo)
    (mb bn : Option String) (ii : Bool) (h : s.prepared = false) :
    create_initrd s installed mb bn ii =
      Except.ok { commands := [], logs := [], state := s } := by
  simp [create_initrd, h]

/-- C4 witness: the silent skip at a fresh never-prepared instance, whose
result filename is absent. -/
theorem create_initrd_unprepared_noop_witness :
    create_initrd (post_init "/r" "/t" "b") (some { name := "vmlinuz", version := "4.4.0" })
        none none false =
      Except.ok { commands := [], logs := [], state := post_init "/r" "/t" "b" } ∧
    (post_init "/r" "/t" "b").initrd_filename = none :=
  ⟨create_initrd_unprepared_noop (post_init "/r" "/t" "b")
      (some { name := "vmlinuz", version := "4.4.0" }) none none false rfl, rfl⟩

/-- C5: the written configuration lines are exactly the add line for a
present non-empty modules list, the omit line for a present non-empty
omit_modules list, in that order, and no file is created when both keys
are absent or empty. -/
theorem write_system_config_file_content (s : BootImageState) (cf : Option String) :
    (∀ x xs,
      (write_system_config_file s { modules := some (x :: xs), omit_modules := none } cf).2.map
          Prod.snd
        = some ["add_dracutmodules+=\" " ++ String.intercalate " " (x :: xs) ++ " \"\n"]) ∧
    (∀ x xs,
      (write_system_config_file s { modules := none, omit_modules := some (x :: xs) } cf).2.map
          Prod.snd
        = some ["omit_dracutmodules+=\" " ++ String.intercalate " " (x :: xs) ++ " \"\n"]) ∧
    (∀ x xs y ys,
      (write_system_config_file s
          { modules := some (x :: xs), omit_modules := some (y :: ys) } cf).2.map Prod.snd
        = some ["add_dracutmodules+=\" " ++ String.intercalate " " (x :: xs) ++ " \"\n",
                "omit_dracutmodules+=\" " ++ String.intercalate " " (y :: ys) ++ " \"\n"]) ∧
    (∀ c : DracutConfig, truthy c.modules = false → truthy c.omit_modules = false →
      (write_system_config_file s c cf).2 = none) := by
  refine ⟨fun x xs => ?_, fun x xs => ?_, fun x xs y ys => ?_, fun c h1 h2 => ?_⟩
  · simp [write_system_config_file, dracut_config_lines]
  · simp [write_system_config_file, dracut_config_lines]
  · simp [write_system_config_file, dracut_config_lines]
  · rcases c with ⟨m, o⟩
    rcases m with _ | (_ | ⟨x, xs⟩) <;> rcases o with _ | (_ | ⟨y, ys⟩) <;>
      simp_all [truthy, write_system_config_file, dracut_config_lines]

/-- C5 witness: an empty modules list and an absent omit_modules key
create no file. -/
theorem write_system_config_file_content_witness :
    (write_system_config_file (post_init "/r" "/t" "b")
        { modules := some [], omit_modules := none } none).2 = none :=
  (write_system_config_file_content (post_init "/r" "/t" "b") none).2.2.2
    { modules := some [], omit_modules := none } rfl rfl

/-- C6: with no kernel installed in the root tree, create_initrd on a
prepared instance propagates the inspector failure of the
raise_on_not_found mode, while get_boot_names raises its own
KiwiDiskBootImageError naming the boot image tree; the two errors are
distinct. -/
theorem kernel_absence_fatal_on_both_paths (s : BootImageState)
    (mb bn : Option String) (ii : Bool) (tool : Option String) (h : s.prepared = true) :
    create_initrd s none mb bn ii = Except.error KiwiError.KernelLookupFailed ∧
    get_boot_names s none tool =
      Except.error (KiwiError.KiwiDiskBootImageError
        ("No kernel in boot image tree " ++ s.boot_root_directory ++ " found")) ∧
    (∀ msg, KiwiError.KernelLookupFailed ≠ KiwiError.KiwiDiskBootImageError msg) := by
  refine ⟨?_, rfl, fun msg h2 => by cases h2⟩
  simp [create_initrd, get_kernel_raise_on_not_found, h]

/-- C6 witness: both failure modes at a concrete prepared instance with
no installed kernel. -/
theorem kernel_absence_fatal_on_both_paths_witness :
    create_initrd (prepare (post_init "/r" "/t" "b")) none none none false =
      Except.error KiwiError.KernelLookupFailed ∧
    get_boot_names (prepare (post_init "/r" "/t" "b")) none none =
      Except.error (KiwiError.KiwiDiskBootImageError
        "No kernel in boot image tree /r found") :=
  ⟨(kernel_absence_fatal_on_both_paths (prepare (post_init "/r" "/t" "b"))
      none none false none rfl).1,
   (kernel_absence_fatal_on_both_paths (prepare (post_init "/r" "/t" "b"))
      none none false none rfl).2.1⟩

/-- C7: an explicit basename wins over the configured default base name,
the xz suffix is always appended, the artifact is moved from the root
tree into the target directory, and the recorded result filename is the
target directory joined with the suffixed basename. -/
theorem create_initrd_basename_and_result (s : BootImageState) (k : KernelInfo)
    (mb : Option String) (ii : Bool) (b : String) (h : s.prepared = true) :
    ((create_initrd s (some k) mb (some b) ii).toOption.map
        (fun r => (r.state.initrd_filename, r.commands[1]?)))
      = some (some (s.target_dir ++ "/" ++ (b ++ ".xz")),
          some ["mv", s.boot_root_directory ++ "/" ++ (b ++ ".xz"), s.target_dir]) ∧
    ((create_initrd s (some k) mb none ii).toOption.map
        (fun r => (r.state.initrd_filename, r.commands[1]?)))
      = some (some (s.target_dir ++ "/" ++ (s.initrd_base_name ++ ".xz")),
          some ["mv", s.boot_root_directory ++ "/" ++ (s.initrd_base_name ++ ".xz"),
                s.target_dir]) := by
  constructor <;>
    cases ii <;> simp [create_initrd, get_kernel_raise_on_not_found, h, Except.toOption]

/-- C7 witness: basename resolution and the recorded result at a concrete
prepared instance, once with an explicit basename and once with the
configured default. -/
theorem create_initrd_basename_and_result_witness :
    ((create_initrd (prepare (post_init "/r" "/t" "base-default"))
        (some { name := "vmlinuz", version := "4.4.0" }) none (some "explicit") false).toOption.map
        (fun r => (r.state.initrd_filename, r.commands[1]?)))
      = some (some "/t/explicit.xz", some ["mv", "/r/explicit.xz", "/t"]) ∧
    ((create_initrd (prepare (post_init "/r" "/t" "base-default"))
        (some { name := "vmlinuz", version := "4.4.0" }) none none false).toOption.map
        (fun r => (r.state.initrd_filename, r.commands[1]?)))
      = some (some "/t/base-default.xz", some ["mv", "/r/base-default.xz", "/t"]) :=
  ⟨(create_initrd_basename_and_result (prepare (post_init "/r" "/t" "base-default"))
      { name := "vmlinuz", version := "4.4.0" } none false "explicit" rfl).1,
   (create_initrd_basename_and_result (prepare (post_init "/r" "/t" "base-default"))
      { name := "vmlinuz", version := "4.4.0" } none false "explicit" rfl).2⟩

/-- C8: whenever the first captured group extracted from the tool text is
the marker content initrd-dollar-kernel, the detector returns the group
with the version placeholder substituted, with no warning logged. -/
theorem dracut_outfile_extraction (t : String)
    (h : (pyFindallOutfile t).head? = some "initrd-$kernel") :
    _get_dracut_output_file_format (some t) =
      Except.ok ("initrd-{kernel_version}", []) := by
  cases hf : pyFindallOutfile t with
  | nil => rw [hf] at h; exact absurd h (by simp)
  | cons x rest =>
    rw [hf] at h
    have hx : x = "initrd-$kernel" := by simpa using h
    subst hx
    simp only [_get_dracut_output_file_format, hf]
    rfl

/-- C8 witness: a tool text holding the literal assignment yields the
substituted template. -/
theorem dracut_outfile_extraction_witness :
    _get_dracut_output_file_format (some "outfile=\"/boot/initrd-$kernel\"") =
      Except.ok ("initrd-{kernel_version}", []) :=
  dracut_outfile_extraction "outfile=\"/boot/initrd-$kernel\"" rfl

/-- C9: write_system_config_file leaves the whole instance state
unchanged, and the written lines depend on the config argument alone,
not on the instance state. -/
theorem write_system_config_file_frame (s t : BootImageState) (c : DracutConfig)
    (cf : Option String) :
    (write_system_config_file s c cf).1 = s ∧
    (write_system_config_file s c cf).2.map Prod.snd =
      (write_system_config_file t c cf).2.map Prod.snd := by
  cases hcl : dracut_config_lines c with
  | nil => constructor <;> simp [write_system_config_file, hcl]
  | cons a as => constructor <;> simp [write_system_config_file, hcl]

/-- C10: the mbrid argument of create_initrd is ignored: two runs that
agree on everything else issue the same commands, logs, state and result
for every pair of mbrid values. -/
theorem create_initrd_mbrid_ignored (s : BootImageState) (installed : Option KernelInfo)
    (bn : Option String) (ii : Bool) (m1 m2 : Option String) :
    create_initrd s installed m1 bn ii = create_initrd s installed m2 bn ii := rfl
